import Mathlib

/-!
Verification of the CF clearance cache and refresh coordinator of grok2api
(src/app/services/cf_clearance/cache.py, src/app/services/cf_clearance/service.py,
src/app/api/v1/admin_api/cf_clearance.py).

Shallow embedding conventions:
* Epoch timestamps (Python floats from time.time and expires_at) are modelled
  as integers; only their order and the zero test matter to the code.
* The cache manager holds a single optional entry plus a refreshing flag;
  asyncio.Lock-protected operations are modelled as pure state transformers.
* The remote call in fetch_from_service is modelled by a FetchOutcome chosen
  by the environment: an HTTP response (status plus parsed JSON fields), an
  httpx.TimeoutException, any other caught Exception (transport errors and
  JSON decode failures land here), or a propagating non-Exception fault such
  as cancellation (the raised constructor), which the except clauses do not
  catch.
* A coroutine run of get_clearance / get_cache is a function of the initial
  manager state, the clock, the fetch outcome, and a poll function giving the
  manager state and clock the coroutine observes at each wakeup of the
  1-second waiter loop (the state may be mutated by the in-flight fetcher
  between wakeups).  The run returns the result (Except Unit models a
  propagating exception), the manager state at return, the number of
  fetch_from_service invocations and the number of 1-second sleeps.
-/

namespace CfClearance

/-- Cached entry, class CFClearanceCache of cache.py.  Field for field the
Python dataclass; cookies becomes an association list. -/
structure CFClearanceCache where
  cf_clearance : String
  user_agent : String
  browser : String
  proxy : Option String
  expires_at : Int
  cookie_string : Option String
  cookies : Option (List (String × String))
deriving DecidableEq

/-- CFClearanceCache.is_expired: true when expires_at is falsy (zero) or the
clock has passed expires_at minus the buffer. -/
def CFClearanceCache.is_expired (c : CFClearanceCache) (buffer_seconds : Int)
    (now : Int) : Bool :=
  if c.expires_at = 0 then true
  else decide (now ≥ c.expires_at - buffer_seconds)

/-- CFClearanceCache.is_valid_for: not expired (with the default 300 s buffer)
and browser and proxy both match exactly. -/
def CFClearanceCache.is_valid_for (c : CFClearanceCache) (browser : String)
    (proxy : Option String) (now : Int) : Bool :=
  if c.is_expired 300 now then false
  else if c.browser ≠ browser then false
  else if c.proxy ≠ proxy then false
  else true

/-- State of CFClearanceCacheManager: the single optional entry and the
refreshing flag, both protected by one asyncio.Lock in the source. -/
structure CMState where
  cache : Option CFClearanceCache
  refreshing : Bool
deriving DecidableEq

/-- CFClearanceCacheManager.get_cached: the current entry when valid for the
requested context, else nothing.  Never mutates state. -/
def get_cached (st : CMState) (browser : String) (proxy : Option String)
    (now : Int) : Option CFClearanceCache :=
  match st.cache with
  | some c => if c.is_valid_for browser proxy now then some c else none
  | none => none

/-- CFClearanceCacheManager.set_cache: replace the entry wholesale. -/
def set_cache (st : CMState) (c : CFClearanceCache) : CMState :=
  { st with cache := some c }

/-- CFClearanceCacheManager.invalidate: clear the entry. -/
def invalidate (st : CMState) : CMState :=
  { st with cache := none }

/-- CFClearanceCacheManager.set_refreshing. -/
def set_refreshing (st : CMState) (v : Bool) : CMState :=
  { st with refreshing := v }

/-- Read-only configuration values the service reads through get_config,
already resolved with their code defaults (target_url "https://grok.com",
timeout 120, browser "chrome136"). -/
structure Config where
  service_url : Option String
  api_key : Option String
  target_url : String
  timeout : Int
  base_proxy_url : Option String
  browser : String
  user_agent : Option String

/-- Python truthiness of an optional string: None and the empty string are
falsy. -/
def truthy (o : Option String) : Bool :=
  match o with
  | some s => s ≠ ""
  | none => false

/-- CFClearanceService.is_enabled: bool(service_url). -/
def is_enabled (cfg : Config) : Bool :=
  truthy cfg.service_url

/-- Python `x or default` on an optional string argument: the default is used
when the argument is None or empty. -/
def pyOr (o : Option String) (d : String) : String :=
  match o with
  | some s => if s = "" then d else s
  | none => d

/-- The `proxy if proxy is not None else self._get_proxy()` resolution: an
explicit argument (even the empty string) wins over the configured proxy. -/
def resolveProxy (proxy : Option String) (cfg : Config) : Option String :=
  match proxy with
  | some p => some p
  | none => cfg.base_proxy_url

/-- Parsed JSON fields of a response from the credential service, as read by
fetch_from_service via data.get. -/
structure ResponseBody where
  success : Bool
  cf_clearance : Option String
  user_agent : Option String
  browser : Option String
  expires_at : Option Int
  cookie_string : Option String
  cookies : Option (List (String × String))
deriving DecidableEq

/-- Environment choice for one remote call of fetch_from_service. -/
inductive FetchOutcome where
  /-- An HTTP response with the given status code and parsed JSON body. -/
  | response (status : Nat) (body : ResponseBody)
  /-- httpx.TimeoutException, caught and logged. -/
  | timeout
  /-- Any other caught Exception: transport errors, JSON decode failures. -/
  | exn
  /-- A fault the except clauses do not catch (a BaseException such as
  cancellation); it propagates out of fetch_from_service. -/
  | raised
deriving DecidableEq

/-- CFClearanceService.fetch_from_service.  Returns Except.error on a
propagating fault, ok none on every caught failure (unconfigured URL,
non-200 status, success false, timeout, other exception) and ok (some entry)
on success, with the entry built exactly as in the source (data.get defaults:
empty strings, the resolved browser argument, expires_at 0). -/
def fetch_from_service (cfg : Config) (browser proxy : Option String)
    (o : FetchOutcome) : Except Unit (Option CFClearanceCache) :=
  if truthy cfg.service_url = false then Except.ok none
  else
    let b := pyOr browser cfg.browser
    let p := resolveProxy proxy cfg
    match o with
    | FetchOutcome.timeout => Except.ok none
    | FetchOutcome.exn => Except.ok none
    | FetchOutcome.raised => Except.error ()
    | FetchOutcome.response status body =>
      if status ≠ 200 then Except.ok none
      else if body.success = false then Except.ok none
      else Except.ok (some
        { cf_clearance := body.cf_clearance.getD ""
          user_agent := body.user_agent.getD ""
          browser := body.browser.getD b
          proxy := p
          expires_at := body.expires_at.getD 0
          cookie_string := body.cookie_string
          cookies := body.cookies })

/-- Result of one coroutine run of get_clearance or get_cache: the returned
value (Except.error models a propagating fault), the manager state at return,
the number of fetch_from_service invocations and of 1-second sleeps. -/
structure RunResult (α : Type) where
  result : Except Unit (Option α)
  state : CMState
  fetches : Nat
  sleeps : Nat

/-- Waiter loop of get_cache (service.py lines 201 to 207): with the given
fuel (30 at top level), sleep one second, poll the manager state, return the
entry on a cache hit, and stop when the refreshing flag clears or the fuel is
exhausted.  The index numbers the wakeups from the start of the call; the
second component counts the sleeps performed. -/
def waitLoopCache (browser : String) (proxy : Option String)
    (poll : Nat → CMState × Int) : Nat → Nat → Option CFClearanceCache × Nat
  | _, 0 => (none, 0)
  | i, fuel + 1 =>
    match get_cached (poll i).1 browser proxy (poll i).2 with
    | some c => (some c, 1)
    | none =>
      if (poll i).1.refreshing = false then (none, 1)
      else
        let r := waitLoopCache browser proxy poll (i + 1) fuel
        (r.1, r.2 + 1)

/-- Waiter loop of get_clearance (service.py lines 165 to 171): the same loop
duplicated in the source, returning the cf_clearance field on a hit. -/
def waitLoopClearance (browser : String) (proxy : Option String)
    (poll : Nat → CMState × Int) : Nat → Nat → Option String × Nat
  | _, 0 => (none, 0)
  | i, fuel + 1 =>
    match get_cached (poll i).1 browser proxy (poll i).2 with
    | some c => (some c.cf_clearance, 1)
    | none =>
      if (poll i).1.refreshing = false then (none, 1)
      else
        let r := waitLoopClearance browser proxy poll (i + 1) fuel
        (r.1, r.2 + 1)

/-- Manager state observed at return from the waiter path: the state of the
last wakeup (the loop always performs at least one sleep; the waiter itself
writes nothing). -/
def waitExitState (st : CMState) (poll : Nat → CMState × Int)
    (sleeps : Nat) : CMState :=
  if sleeps = 0 then st else (poll (sleeps - 1)).1

/-- CFClearanceService.get_clearance (service.py lines 148 to 182): resolve
browser and proxy, serve a valid cached entry unless force_refresh, otherwise
wait when a refresh is in flight, otherwise become the fetcher: set the
refreshing flag, fetch, publish on success, and clear the flag in the finally
clause on every exit, the propagating-fault one included. -/
def get_clearance (cfg : Config) (browser proxy : Option String)
    (force_refresh : Bool) (st : CMState) (now : Int) (o : FetchOutcome)
    (poll : Nat → CMState × Int) : RunResult String :=
  let b := pyOr browser cfg.browser
  let p := resolveProxy proxy cfg
  match (if force_refresh then none else get_cached st b p now) with
  | some c =>
    { result := Except.ok (some c.cf_clearance), state := st
      fetches := 0, sleeps := 0 }
  | none =>
    if st.refreshing then
      let r := waitLoopClearance b p poll 0 30
      { result := Except.ok r.1, state := waitExitState st poll r.2
        fetches := 0, sleeps := r.2 }
    else
      let st1 := set_refreshing st true
      match fetch_from_service cfg (some b) p o with
      | Except.error _ =>
        { result := Except.error (), state := set_refreshing st1 false
          fetches := 1, sleeps := 0 }
      | Except.ok none =>
        { result := Except.ok none, state := set_refreshing st1 false
          fetches := 1, sleeps := 0 }
      | Except.ok (some c) =>
        { result := Except.ok (some c.cf_clearance)
          state := set_refreshing (set_cache st1 c) false
          fetches := 1, sleeps := 0 }

/-- CFClearanceService.get_cache (service.py lines 184 to 218): the same
code duplicated in the source, returning whole entries instead of the
cf_clearance field. -/
def get_cache (cfg : Config) (browser proxy : Option String)
    (force_refresh : Bool) (st : CMState) (now : Int) (o : FetchOutcome)
    (poll : Nat → CMState × Int) : RunResult CFClearanceCache :=
  let b := pyOr browser cfg.browser
  let p := resolveProxy proxy cfg
  match (if force_refresh then none else get_cached st b p now) with
  | some c =>
    { result := Except.ok (some c), state := st, fetches := 0, sleeps := 0 }
  | none =>
    if st.refreshing then
      let r := waitLoopCache b p poll 0 30
      { result := Except.ok r.1, state := waitExitState st poll r.2
        fetches := 0, sleeps := r.2 }
    else
      let st1 := set_refreshing st true
      match fetch_from_service cfg (some b) p o with
      | Except.error _ =>
        { result := Except.error (), state := set_refreshing st1 false
          fetches := 1, sleeps := 0 }
      | Except.ok none =>
        { result := Except.ok none, state := set_refreshing st1 false
          fetches := 1, sleeps := 0 }
      | Except.ok (some c) =>
        { result := Except.ok (some c)
          state := set_refreshing (set_cache st1 c) false
          fetches := 1, sleeps := 0 }

/-- The enumerated failure modes of the remote call: timeout, any other
caught exception (transport error, malformed body), or an HTTP response with
non-200 status or success false. -/
def FailingOutcome (o : FetchOutcome) : Prop :=
  o = FetchOutcome.timeout ∨ o = FetchOutcome.exn ∨
    ∃ status body, o = FetchOutcome.response status body ∧
      (status ≠ 200 ∨ body.success = false)

/-- Response model of the admin status endpoint, class CFStatusResponse of
admin_api/cf_clearance.py. -/
structure CFStatusResponse where
  enabled : Bool
  service_url : Option String
  has_cache : Bool
  cached_clearance : Option String
deriving DecidableEq

/-- Service URL as shown by the status endpoint: truncated to 50 characters
plus an ellipsis when truthy and longer than 50, otherwise unchanged. -/
def truncateServiceUrl (u : Option String) : Option String :=
  match u with
  | some s =>
    if s ≠ "" ∧ s.length > 50 then some (s.take 50 ++ "...") else some s
  | none => none

/-- Admin handler get_cf_status (admin_api/cf_clearance.py lines 31 to 50):
when the service is enabled it calls get_cache with default arguments, which
may itself fetch, then reports enabled, the truncated service URL, whether an
entry was returned, and a 30-character preview of its token (absent when the
token is empty).  The manager state after the call and the fetch count are
returned alongside the response; a propagating fault from get_cache escapes
the handler. -/
def get_cf_status (cfg : Config) (st : CMState) (now : Int) (o : FetchOutcome)
    (poll : Nat → CMState × Int) :
    Except Unit (CFStatusResponse × CMState × Nat) :=
  if is_enabled cfg then
    match (get_cache cfg none none false st now o poll).result with
    | Except.error _ => Except.error ()
    | Except.ok none =>
      Except.ok ({ enabled := is_enabled cfg
                   service_url := truncateServiceUrl cfg.service_url
                   has_cache := false
                   cached_clearance := none },
        (get_cache cfg none none false st now o poll).state,
        (get_cache cfg none none false st now o poll).fetches)
    | Except.ok (some c) =>
      Except.ok ({ enabled := is_enabled cfg
                   service_url := truncateServiceUrl cfg.service_url
                   has_cache := true
                   cached_clearance :=
                     if c.cf_clearance = "" then none
                     else some (c.cf_clearance.take 30 ++ "...") },
        (get_cache cfg none none false st now o poll).state,
        (get_cache cfg none none false st now o poll).fetches)
  else
    Except.ok ({ enabled := is_enabled cfg
                 service_url := truncateServiceUrl cfg.service_url
                 has_cache := false
                 cached_clearance := none }, st, 0)

/-- Program counter of one caller coroutine running get_clearance or
get_cache.  The asyncio event loop is single threaded and a coroutine yields
only where it awaits something that actually suspends: asyncio.sleep(1) in
the waiter loop and the awaited HTTP request inside fetch_from_service.  The
asyncio.Lock of the cache manager is only ever held across straight-line
code, so no coroutine can observe it locked at a scheduling point and its
acquisitions take the non-suspending fast path.  The entry block (initial
get_cached, is_refreshing, set_refreshing True up to the HTTP await), each
wakeup's get_cached-then-is_refreshing poll, and the fetcher's epilogue
(set_cache plus the finally set_refreshing False) therefore each run
atomically between suspension points. -/
inductive PC where
  /-- About to run the entry block of the call. -/
  | start (force_refresh : Bool)
  /-- Suspended in asyncio.sleep(1) with the given loop iterations left. -/
  | waiting (fuel : Nat)
  /-- Suspended in the awaited HTTP request of fetch_from_service. -/
  | fetching
  /-- Returned; a propagating fault is modelled as a none result here, which
  is all the singleflight invariant needs. -/
  | done (result : Option String)
deriving DecidableEq

/-- Per-caller request parameters after the browser-or-default and
proxy-or-default resolution at the top of the call. -/
structure Params where
  browser : String
  proxy : Option String

/-- Global state of the concurrent system: the shared cache-manager state
and the program counter of each of the n callers. -/
structure Sys (n : Nat) where
  st : CMState
  pcs : Fin n → PC

/-- One atomic step of the concurrent system: a scheduler choice of caller i
together with the environment's choice of clock and, on fetch completion, of
remote outcome.  The admin invalidate endpoint may also run at any point. -/
inductive Step {n : Nat} (cfg : Config) (params : Fin n → Params) :
    Sys n → Sys n → Prop where
  /-- Entry block, force_refresh false, valid cached entry: return it. -/
  | hit (s : Sys n) (i : Fin n) (now : Int) (c : CFClearanceCache)
      (hpc : s.pcs i = PC.start false)
      (hc : get_cached s.st (params i).browser (params i).proxy now = some c) :
      Step cfg params s
        ⟨s.st, fun k => if k = i then PC.done (some c.cf_clearance)
          else s.pcs k⟩
  /-- Entry block, no usable entry, refresh in flight: join the waiters. -/
  | toWait (s : Sys n) (i : Fin n) (fr : Bool) (now : Int)
      (hpc : s.pcs i = PC.start fr)
      (hmiss : fr = true ∨
        get_cached s.st (params i).browser (params i).proxy now = none)
      (href : s.st.refreshing = true) :
      Step cfg params s
        ⟨s.st, fun k => if k = i then PC.waiting 30 else s.pcs k⟩
  /-- Entry block, no usable entry, no refresh in flight: become the
  fetcher, setting the flag in the same atomic block. -/
  | toFetch (s : Sys n) (i : Fin n) (fr : Bool) (now : Int)
      (hpc : s.pcs i = PC.start fr)
      (hmiss : fr = true ∨
        get_cached s.st (params i).browser (params i).proxy now = none)
      (href : s.st.refreshing = false) :
      Step cfg params s
        ⟨set_refreshing s.st true,
          fun k => if k = i then PC.fetching else s.pcs k⟩
  /-- Waiter wakeup that finds a valid entry: return it. -/
  | wakeHit (s : Sys n) (i : Fin n) (fuel : Nat) (now : Int)
      (c : CFClearanceCache)
      (hpc : s.pcs i = PC.waiting (fuel + 1))
      (hc : get_cached s.st (params i).browser (params i).proxy now = some c) :
      Step cfg params s
        ⟨s.st, fun k => if k = i then PC.done (some c.cf_clearance)
          else s.pcs k⟩
  /-- Waiter wakeup that misses and sees the flag cleared: give up. -/
  | wakeBreak (s : Sys n) (i : Fin n) (fuel : Nat) (now : Int)
      (hpc : s.pcs i = PC.waiting (fuel + 1))
      (hc : get_cached s.st (params i).browser (params i).proxy now = none)
      (href : s.st.refreshing = false) :
      Step cfg params s
        ⟨s.st, fun k => if k = i then PC.done none else s.pcs k⟩
  /-- Waiter wakeup that misses with the flag still set and fuel left:
  sleep again. -/
  | wakeAgain (s : Sys n) (i : Fin n) (fuel : Nat) (now : Int)
      (hpc : s.pcs i = PC.waiting (fuel + 2))
      (hc : get_cached s.st (params i).browser (params i).proxy now = none)
      (href : s.st.refreshing = true) :
      Step cfg params s
        ⟨s.st, fun k => if k = i then PC.waiting (fuel + 1) else s.pcs k⟩
  /-- Last waiter wakeup that misses with the flag still set: timeout. -/
  | wakeExhaust (s : Sys n) (i : Fin n) (now : Int)
      (hpc : s.pcs i = PC.waiting 1)
      (hc : get_cached s.st (params i).browser (params i).proxy now = none)
      (href : s.st.refreshing = true) :
      Step cfg params s
        ⟨s.st, fun k => if k = i then PC.done none else s.pcs k⟩
  /-- Fetch completion on success: publish the entry and clear the flag. -/
  | fetchPublish (s : Sys n) (i : Fin n) (o : FetchOutcome)
      (c : CFClearanceCache)
      (hpc : s.pcs i = PC.fetching)
      (hf : fetch_from_service cfg (some (params i).browser)
        (params i).proxy o = Except.ok (some c)) :
      Step cfg params s
        ⟨set_refreshing (set_cache s.st c) false,
          fun k => if k = i then PC.done (some c.cf_clearance) else s.pcs k⟩
  /-- Fetch completion on a caught failure: clear the flag, return none. -/
  | fetchFail (s : Sys n) (i : Fin n) (o : FetchOutcome)
      (hpc : s.pcs i = PC.fetching)
      (hf : fetch_from_service cfg (some (params i).browser)
        (params i).proxy o = Except.ok none) :
      Step cfg params s
        ⟨set_refreshing s.st false,
          fun k => if k = i then PC.done none else s.pcs k⟩
  /-- Fetch completion on a propagating fault: the finally clause still
  clears the flag before the fault escapes. -/
  | fetchRaise (s : Sys n) (i : Fin n) (o : FetchOutcome)
      (hpc : s.pcs i = PC.fetching)
      (hf : fetch_from_service cfg (some (params i).browser)
        (params i).proxy o = Except.error ()) :
      Step cfg params s
        ⟨set_refreshing s.st false,
          fun k => if k = i then PC.done none else s.pcs k⟩
  /-- The admin invalidate endpoint clears the entry at any time; it never
  touches the refreshing flag. -/
  | adminInvalidate (s : Sys n) :
      Step cfg params s ⟨invalidate s.st, s.pcs⟩

/-- Singleflight invariant: when the refreshing flag is clear nobody is
fetching, and at most one caller is ever in the fetching state. -/
def Inv {n : Nat} (s : Sys n) : Prop :=
  (s.st.refreshing = false → ∀ i, s.pcs i ≠ PC.fetching) ∧
  (∀ i j, s.pcs i = PC.fetching → s.pcs j = PC.fetching → i = j)

/-- Concrete entry used by witnesses: a valid chrome136 entry expiring at
time 4000. -/
def entW : CFClearanceCache :=
  { cf_clearance := "abcd1234"
    user_agent := "ua"
    browser := "chrome136"
    proxy := none
    expires_at := 4000
    cookie_string := none
    cookies := none }

/-- Concrete configuration used by witnesses. -/
def cfgW : Config :=
  { service_url := some "http://cf.example"
    api_key := none
    target_url := "https://grok.com"
    timeout := 120
    base_proxy_url := none
    browser := "chrome136"
    user_agent := none }

/-- Empty manager state, no refresh in flight. -/
def stEmpty : CMState := { cache := none, refreshing := false }

/-- Manager state holding the witness entry, no refresh in flight. -/
def stValid : CMState := { cache := some entW, refreshing := false }

/-- Empty manager state with a refresh in flight. -/
def stRefreshing : CMState := { cache := none, refreshing := true }

/-- Poll function on which the fetcher never completes: every wakeup sees an
empty cache and the refreshing flag still set. -/
def pollStuck : Nat → CMState × Int := fun _ => (stRefreshing, 0)

/-- Poll function on which the fetcher has published the witness entry and
cleared the flag before the first wakeup. -/
def pollDone : Nat → CMState × Int :=
  fun _ => ({ cache := some entW, refreshing := false }, 100)

/-- A successful response body carrying a fresh token. -/
def bodyW : ResponseBody :=
  { success := true
    cf_clearance := some "tok5678"
    user_agent := some "ua2"
    browser := some "chrome136"
    expires_at := some 9000
    cookie_string := none
    cookies := none }

/-- Entry built by fetch_from_service from bodyW in the witness runs. -/
def entFetched : CFClearanceCache :=
  { cf_clearance := "tok5678"
    user_agent := "ua2"
    browser := "chrome136"
    proxy := none
    expires_at := 9000
    cookie_string := none
    cookies := none }

/-- Manager state after the witness status call stored the fetched entry. -/
def stFetched : CMState := { cache := some entFetched, refreshing := false }

/-- Status response produced by the witness status call. -/
def respW : CFStatusResponse :=
  { enabled := true
    service_url := some "http://cf.example"
    has_cache := true
    cached_clearance := some ("tok5678".take 30 ++ "...") }

/-- C2.  For every entry, context and nonnegative clock, is_valid_for holds
iff the entry's browser and proxy match exactly and now < expires_at - 300;
and an entry with zero expires_at is never valid for any context at any
time. -/
theorem is_valid_for_characterization (c : CFClearanceCache) (browser : String)
    (proxy : Option String) (now : Int) :
    (0 ≤ now →
      (c.is_valid_for browser proxy now = true ↔
        (c.browser = browser ∧ c.proxy = proxy ∧ now < c.expires_at - 300))) ∧
    (c.expires_at = 0 →
      ∀ (b : String) (p : Option String) (t : Int),
        c.is_valid_for b p t = false) := by
  constructor
  · intro hnow
    unfold CFClearanceCache.is_valid_for CFClearanceCache.is_expired
    by_cases hb : c.browser = browser <;> by_cases hp : c.proxy = proxy <;>
      by_cases hz : c.expires_at = 0 <;>
      by_cases hle : now ≥ c.expires_at - 300 <;>
      simp [hb, hp, hz, hle] <;> omega
  · intro hz b p t
    unfold CFClearanceCache.is_valid_for CFClearanceCache.is_expired
    simp [hz]

/-- Witness for C2 at a concrete entry, context and clock. -/
theorem is_valid_for_characterization_witness :
    entW.is_valid_for "chrome136" none 100 = true :=
  ((is_valid_for_characterization entW "chrome136" none 100).1
    (by decide)).mpr ⟨rfl, rfl, by decide⟩

/-- The two duplicated waiter loops agree: the clearance loop is the cache
loop with the cf_clearance projection applied to a hit. -/
theorem waitLoopClearance_eq_map (browser : String) (proxy : Option String)
    (poll : Nat → CMState × Int) :
    ∀ (fuel i : Nat),
      waitLoopClearance browser proxy poll i fuel =
        ((waitLoopCache browser proxy poll i fuel).1.map
            CFClearanceCache.cf_clearance,
          (waitLoopCache browser proxy poll i fuel).2) := by
  intro fuel
  induction fuel with
  | zero => intro i; rfl
  | succ f ih =>
    intro i
    simp only [waitLoopClearance, waitLoopCache]
    cases hc : get_cached (poll i).1 browser proxy (poll i).2 with
    | some c => simp
    | none =>
      by_cases hr : ((poll i).1).refreshing = false
      · simp [hr]
      · simp [hr, ih (i + 1)]

/-- A waiter that sees fuel consecutive wakeups with no valid entry and the
refreshing flag still set exhausts the loop: no hit, fuel sleeps. -/
theorem waitLoopCache_all_miss (browser : String) (proxy : Option String)
    (poll : Nat → CMState × Int) :
    ∀ (fuel i : Nat),
      (∀ j, j < fuel →
        get_cached (poll (i + j)).1 browser proxy (poll (i + j)).2 = none ∧
        ((poll (i + j)).1).refreshing = true) →
      waitLoopCache browser proxy poll i fuel = (none, fuel) := by
  intro fuel
  induction fuel with
  | zero => intro i _; rfl
  | succ f ih =>
    intro i h
    have h0 := h 0 (Nat.succ_pos f)
    rw [Nat.add_zero] at h0
    have hrec := ih (i + 1) (fun j hj => by
      have hr := h (j + 1) (Nat.succ_lt_succ hj)
      rwa [show i + (j + 1) = i + 1 + j by omega] at hr)
    simp [waitLoopCache, h0.1, h0.2, hrec]

/-- A waiter whose first k wakeups miss with the flag still set, and whose
wakeup k sees the flag cleared, stops after k + 1 sleeps and returns exactly
the valid-entry lookup of wakeup k. -/
theorem waitLoopCache_break (browser : String) (proxy : Option String)
    (poll : Nat → CMState × Int) :
    ∀ (k fuel i : Nat), k < fuel →
      (∀ j, j < k →
        get_cached (poll (i + j)).1 browser proxy (poll (i + j)).2 = none ∧
        ((poll (i + j)).1).refreshing = true) →
      ((poll (i + k)).1).refreshing = false →
      waitLoopCache browser proxy poll i fuel =
        (get_cached (poll (i + k)).1 browser proxy (poll (i + k)).2, k + 1) := by
  intro k
  induction k with
  | zero =>
    intro fuel i hk hmiss hbreak
    match fuel, hk with
    | f + 1, _ =>
      rw [Nat.add_zero] at hbreak
      rw [Nat.add_zero]
      simp only [waitLoopCache]
      cases hc : get_cached (poll i).1 browser proxy (poll i).2 with
      | some c => simp [hc]
      | none => simp [hbreak, hc]
  | succ kk ih =>
    intro fuel i hk hmiss hbreak
    match fuel, hk with
    | f + 1, hk =>
      have h0 := hmiss 0 (Nat.succ_pos kk)
      rw [Nat.add_zero] at h0
      have hrec := ih f (i + 1) (by omega)
        (fun j hj => by
          have hr := hmiss (j + 1) (Nat.succ_lt_succ hj)
          rwa [show i + (j + 1) = i + 1 + j by omega] at hr)
        (by rwa [show i + 1 + kk = i + (kk + 1) by omega])
      rw [show i + (kk + 1) = i + 1 + kk by omega]
      simp [waitLoopCache, h0.1, h0.2, hrec]

/-- Every enumerated remote-call failure makes fetch_from_service return
ok none: the failure is caught and no entry is produced. -/
theorem failing_fetch_eq_none (cfg : Config) (browser proxy : Option String)
    (o : FetchOutcome) (hfail : FailingOutcome o) :
    fetch_from_service cfg browser proxy o = Except.ok none := by
  unfold fetch_from_service
  by_cases hu : truthy cfg.service_url = false
  · simp [hu]
  · rcases hfail with h | h | ⟨status, body, h, hsb⟩ <;> subst h
    · simp [hu]
    · simp [hu]
    · rcases hsb with hs | hs <;> simp [hu, hs]

/-- C7.  With force_refresh false and a cached entry valid for the caller
context, get_clearance returns that entry's token immediately: no fetch, no
sleep, manager state unchanged. -/
theorem cache_hit_no_fetch (cfg : Config) (browser proxy : Option String)
    (st : CMState) (now : Int) (o : FetchOutcome)
    (poll : Nat → CMState × Int) (c : CFClearanceCache)
    (hhit : get_cached st (pyOr browser cfg.browser) (resolveProxy proxy cfg)
      now = some c) :
    get_clearance cfg browser proxy false st now o poll =
      { result := Except.ok (some c.cf_clearance), state := st
        fetches := 0, sleeps := 0 } := by
  simp [get_clearance, hhit]

/-- Witness for C7: a valid cached entry is served with no fetch and no
state change. -/
theorem cache_hit_no_fetch_witness :
    get_clearance cfgW none none false stValid 100 FetchOutcome.timeout
        pollStuck =
      { result := Except.ok (some entW.cf_clearance), state := stValid
        fetches := 0, sleeps := 0 } :=
  cache_hit_no_fetch cfgW none none stValid 100 FetchOutcome.timeout pollStuck
    entW (by decide)

/-- C4.  Whenever the fetcher path is taken (no usable cached entry, no
refresh in flight), the refreshing flag is false after the call for every
fetch outcome, the propagating-fault one included, in both get_clearance and
get_cache: the reset sits in the finally clause of both functions. -/
theorem refreshing_cleared_after_fetcher (cfg : Config)
    (browser proxy : Option String) (fr : Bool) (st : CMState) (now : Int)
    (o : FetchOutcome) (poll : Nat → CMState × Int)
    (href : st.refreshing = false)
    (hmiss : fr = true ∨
      get_cached st (pyOr browser cfg.browser) (resolveProxy proxy cfg)
        now = none) :
    (get_clearance cfg browser proxy fr st now o poll).state.refreshing =
      false ∧
    (get_cache cfg browser proxy fr st now o poll).state.refreshing =
      false := by
  have hscrut : (if fr then none
      else get_cached st (pyOr browser cfg.browser) (resolveProxy proxy cfg)
        now) = (none : Option CFClearanceCache) := by
    rcases hmiss with h | h <;> simp [h]
  constructor <;>
  · simp only [get_clearance, get_cache, hscrut, href]
    cases hf : fetch_from_service cfg (some (pyOr browser cfg.browser))
        (resolveProxy proxy cfg) o with
    | error e => simp [set_refreshing]
    | ok oc => cases oc <;> simp [set_refreshing]

/-- Witness for C4 with a propagating fault from the remote call. -/
theorem refreshing_cleared_after_fetcher_witness :
    (get_clearance cfgW none none true stValid 100 FetchOutcome.raised
        pollStuck).state.refreshing = false ∧
    (get_cache cfgW none none true stValid 100 FetchOutcome.raised
        pollStuck).state.refreshing = false :=
  refreshing_cleared_after_fetcher cfgW none none true stValid 100
    FetchOutcome.raised pollStuck rfl (Or.inl rfl)

/-- C3.  When the fetcher path is taken and the remote call fails for any of
the enumerated reasons, get_clearance returns none (the FetchFailed result)
and the cached entry is untouched: every context still sees exactly the
valid entries it saw before the call. -/
theorem fetch_failure_leaves_cache (cfg : Config)
    (browser proxy : Option String) (fr : Bool) (st : CMState) (now : Int)
    (o : FetchOutcome) (poll : Nat → CMState × Int)
    (href : st.refreshing = false)
    (hmiss : fr = true ∨
      get_cached st (pyOr browser cfg.browser) (resolveProxy proxy cfg)
        now = none)
    (hfail : FailingOutcome o) :
    (get_clearance cfg browser proxy fr st now o poll).result =
      Except.ok none ∧
    (get_clearance cfg browser proxy fr st now o poll).state.cache =
      st.cache ∧
    ∀ (b : String) (p : Option String) (t : Int),
      get_cached (get_clearance cfg browser proxy fr st now o poll).state
        b p t = get_cached st b p t := by
  have hscrut : (if fr then none
      else get_cached st (pyOr browser cfg.browser) (resolveProxy proxy cfg)
        now) = (none : Option CFClearanceCache) := by
    rcases hmiss with h | h <;> simp [h]
  have hf := failing_fetch_eq_none cfg (some (pyOr browser cfg.browser))
    (resolveProxy proxy cfg) o hfail
  have hstate : (get_clearance cfg browser proxy fr st now o poll).state.cache
      = st.cache := by
    simp [get_clearance, hscrut, href, hf, set_refreshing]
  refine ⟨?_, hstate, ?_⟩
  · simp [get_clearance, hscrut, href, hf, set_refreshing]
  · intro b p t
    unfold get_cached
    rw [hstate]

/-- Witness for C3: a 500 response leaves a pre-existing entry in place and
returns the failure result. -/
theorem fetch_failure_leaves_cache_witness :
    (get_clearance cfgW (some "firefox1") none false stValid 100
        (FetchOutcome.response 500 bodyW) pollStuck).result =
      Except.ok none ∧
    (get_clearance cfgW (some "firefox1") none false stValid 100
        (FetchOutcome.response 500 bodyW) pollStuck).state.cache =
      stValid.cache ∧
    ∀ (b : String) (p : Option String) (t : Int),
      get_cached (get_clearance cfgW (some "firefox1") none false stValid 100
        (FetchOutcome.response 500 bodyW) pollStuck).state b p t =
        get_cached stValid b p t :=
  fetch_failure_leaves_cache cfgW (some "firefox1") none false stValid 100
    (FetchOutcome.response 500 bodyW) pollStuck rfl (Or.inr (by decide))
    (Or.inr (Or.inr ⟨500, bodyW, rfl, Or.inl (by decide)⟩))

/-- C5.  A caller entering the waiter path on which the fetcher never
completes nor publishes a matching entry performs exactly 30 one-second
sleeps, each preceding a poll, and then returns none (the Timeout result)
without ever fetching. -/
theorem waiter_timeout_after_30 (cfg : Config) (browser proxy : Option String)
    (fr : Bool) (st : CMState) (now : Int) (o : FetchOutcome)
    (poll : Nat → CMState × Int)
    (href : st.refreshing = true)
    (hmiss : fr = true ∨
      get_cached st (pyOr browser cfg.browser) (resolveProxy proxy cfg)
        now = none)
    (hstuck : ∀ j, j < 30 →
      get_cached (poll j).1 (pyOr browser cfg.browser)
        (resolveProxy proxy cfg) (poll j).2 = none ∧
      ((poll j).1).refreshing = true) :
    (get_clearance cfg browser proxy fr st now o poll).result =
      Except.ok none ∧
    (get_clearance cfg browser proxy fr st now o poll).sleeps = 30 ∧
    (get_clearance cfg browser proxy fr st now o poll).fetches = 0 := by
  have hscrut : (if fr then none
      else get_cached st (pyOr browser cfg.browser) (resolveProxy proxy cfg)
        now) = (none : Option CFClearanceCache) := by
    rcases hmiss with h | h <;> simp [h]
  have hloop := waitLoopCache_all_miss (pyOr browser cfg.browser)
    (resolveProxy proxy cfg) poll 30 0 (fun j hj => by simpa using hstuck j hj)
  refine ⟨?_, ?_, ?_⟩ <;>
    simp [get_clearance, hscrut, href, waitLoopClearance_eq_map, hloop]

/-- Witness for C5: a refresh that never completes forces 30 sleeps and a
none result. -/
theorem waiter_timeout_after_30_witness :
    (get_clearance cfgW none none false stRefreshing 0 FetchOutcome.timeout
        pollStuck).result = Except.ok none ∧
    (get_clearance cfgW none none false stRefreshing 0 FetchOutcome.timeout
        pollStuck).sleeps = 30 ∧
    (get_clearance cfgW none none false stRefreshing 0 FetchOutcome.timeout
        pollStuck).fetches = 0 :=
  waiter_timeout_after_30 cfgW none none false stRefreshing 0
    FetchOutcome.timeout pollStuck rfl (Or.inr rfl)
    (fun _ _ => ⟨rfl, rfl⟩)

/-- C6.  When the waiter observes at wakeup k that the refreshing flag has
cleared, it stops after k + 1 sleeps, and its result is exactly the
valid-entry lookup of that same wakeup: an entry published by the fetcher
just before clearing the flag is still returned (in both entry points). -/
theorem waiter_break_final_check (cfg : Config) (browser proxy : Option String)
    (fr : Bool) (st : CMState) (now : Int) (o : FetchOutcome)
    (poll : Nat → CMState × Int) (k : Nat)
    (href : st.refreshing = true)
    (hmiss : fr = true ∨
      get_cached st (pyOr browser cfg.browser) (resolveProxy proxy cfg)
        now = none)
    (hk : k < 30)
    (hbefore : ∀ j, j < k →
      get_cached (poll j).1 (pyOr browser cfg.browser)
        (resolveProxy proxy cfg) (poll j).2 = none ∧
      ((poll j).1).refreshing = true)
    (hbreak : ((poll k).1).refreshing = false) :
    (get_clearance cfg browser proxy fr st now o poll).result =
      Except.ok (Option.map CFClearanceCache.cf_clearance
        (get_cached (poll k).1 (pyOr browser cfg.browser)
          (resolveProxy proxy cfg) (poll k).2)) ∧
    (get_clearance cfg browser proxy fr st now o poll).sleeps = k + 1 ∧
    (get_cache cfg browser proxy fr st now o poll).result =
      Except.ok (get_cached (poll k).1 (pyOr browser cfg.browser)
        (resolveProxy proxy cfg) (poll k).2) ∧
    (get_cache cfg browser proxy fr st now o poll).sleeps = k + 1 := by
  have hscrut : (if fr then none
      else get_cached st (pyOr browser cfg.browser) (resolveProxy proxy cfg)
        now) = (none : Option CFClearanceCache) := by
    rcases hmiss with h | h <;> simp [h]
  have hloop := waitLoopCache_break (pyOr browser cfg.browser)
    (resolveProxy proxy cfg) poll k 30 0 hk
    (fun j hj => by simpa using hbefore j hj) (by simpa using hbreak)
  refine ⟨?_, ?_, ?_, ?_⟩ <;>
    simp [get_clearance, get_cache, hscrut, href, waitLoopClearance_eq_map,
      hloop]

/-- Witness for C6: the fetcher published the witness entry and cleared the
flag before the first wakeup; the waiter returns it after one sleep. -/
theorem waiter_break_final_check_witness :
    (get_clearance cfgW none none false stRefreshing 0 FetchOutcome.timeout
        pollDone).result =
      Except.ok (Option.map CFClearanceCache.cf_clearance
        (get_cached (pollDone 0).1 (pyOr none cfgW.browser)
          (resolveProxy none cfgW) (pollDone 0).2)) ∧
    (get_clearance cfgW none none false stRefreshing 0 FetchOutcome.timeout
        pollDone).sleeps = 0 + 1 ∧
    (get_cache cfgW none none false stRefreshing 0 FetchOutcome.timeout
        pollDone).result =
      Except.ok (get_cached (pollDone 0).1 (pyOr none cfgW.browser)
        (resolveProxy none cfgW) (pollDone 0).2) ∧
    (get_cache cfgW none none false stRefreshing 0 FetchOutcome.timeout
        pollDone).sleeps = 0 + 1 :=
  waiter_break_final_check cfgW none none false stRefreshing 0
    FetchOutcome.timeout pollDone 0 rfl (Or.inr rfl) (by decide)
    (fun j hj => absurd hj (Nat.not_lt_zero j)) rfl

/-- C9.  On identical inputs and environment, get_clearance is get_cache
with the cf_clearance projection applied to the returned entry: the results
agree up to the projection, and the final state, fetch count and sleep count
are identical. -/
theorem get_clearance_eq_map_get_cache (cfg : Config)
    (browser proxy : Option String) (fr : Bool) (st : CMState) (now : Int)
    (o : FetchOutcome) (poll : Nat → CMState × Int) :
    (get_clearance cfg browser proxy fr st now o poll).result =
      Except.map (Option.map CFClearanceCache.cf_clearance)
        (get_cache cfg browser proxy fr st now o poll).result ∧
    (get_clearance cfg browser proxy fr st now o poll).state =
      (get_cache cfg browser proxy fr st now o poll).state ∧
    (get_clearance cfg browser proxy fr st now o poll).fetches =
      (get_cache cfg browser proxy fr st now o poll).fetches ∧
    (get_clearance cfg browser proxy fr st now o poll).sleeps =
      (get_cache cfg browser proxy fr st now o poll).sleeps := by
  simp only [get_clearance, get_cache]
  cases hinit : (if fr then none
      else get_cached st (pyOr browser cfg.browser) (resolveProxy proxy cfg)
        now) with
  | some c => simp [Except.map]
  | none =>
    by_cases hr : st.refreshing
    · simp [hr, waitLoopClearance_eq_map, Except.map]
    · simp only [hr, Bool.false_eq_true, if_false]
      cases hf : fetch_from_service cfg (some (pyOr browser cfg.browser))
          (resolveProxy proxy cfg) o with
      | error e => simp [Except.map]
      | ok oc => cases oc <;> simp [Except.map]

/-- A 30-character preview followed by an ellipsis never exceeds 33
characters. -/
theorem preview_length_le (s : String) : (s.take 30 ++ "...").length ≤ 33 := by
  rw [String.take_eq]
  show (List.take 30 s.data ++ "...".data).length ≤ 33
  rw [List.length_append, List.length_take]
  have h3 : "...".data.length = 3 := rfl
  omega

/-- C8.  Whatever the configuration, state and environment, a returned
status response's cached-value field is either absent or exactly the first
30 characters of the token of the entry get_cache returned followed by an
ellipsis; a present preview never exceeds 33 characters, so a secret longer
than the preview is never exposed whole. -/
theorem status_preview_truncated (cfg : Config) (st : CMState) (now : Int)
    (o : FetchOutcome) (poll : Nat → CMState × Int)
    (resp : CFStatusResponse) (st2 : CMState) (k : Nat)
    (h : get_cf_status cfg st now o poll = Except.ok (resp, st2, k)) :
    (resp.cached_clearance = none ∨
      ∃ c, (get_cache cfg none none false st now o poll).result =
          Except.ok (some c) ∧
        resp.cached_clearance = some (c.cf_clearance.take 30 ++ "...")) ∧
    ∀ s, resp.cached_clearance = some s → s.length ≤ 33 := by
  unfold get_cf_status at h
  by_cases hen : is_enabled cfg = true
  · rw [if_pos hen] at h
    cases hr : (get_cache cfg none none false st now o poll).result with
    | error e => rw [hr] at h; simp at h
    | ok oc =>
      cases oc with
      | none =>
        rw [hr] at h
        injection h with h1
        injection h1 with h2 h3
        subst h2
        exact ⟨Or.inl rfl, fun s hs => by simp at hs⟩
      | some c =>
        rw [hr] at h
        injection h with h1
        injection h1 with h2 h3
        subst h2
        by_cases hcc : c.cf_clearance = ""
        · refine ⟨Or.inl ?_, fun s hs => ?_⟩
          · simp [hcc]
          · simp [hcc] at hs
        · refine ⟨Or.inr ⟨c, rfl, ?_⟩, fun s hs => ?_⟩
          · simp [hcc]
          · simp [hcc] at hs
            rw [hs.symm]
            exact preview_length_le c.cf_clearance
  · rw [if_neg hen] at h
    injection h with h1
    injection h1 with h2 h3
    subst h2
    exact ⟨Or.inl rfl, fun s hs => by simp at hs⟩

/-- Witness for C8 on a run in which the status endpoint fetched a fresh
entry. -/
theorem status_preview_truncated_witness :
    ((respW).cached_clearance = none ∨
      ∃ c, (get_cache cfgW none none false stEmpty 100
            (FetchOutcome.response 200 bodyW) pollStuck).result =
          Except.ok (some c) ∧
        respW.cached_clearance = some (c.cf_clearance.take 30 ++ "...")) ∧
    ∀ s, respW.cached_clearance = some s → s.length ≤ 33 :=
  status_preview_truncated cfgW stEmpty 100 (FetchOutcome.response 200 bodyW)
    pollStuck respW stFetched 1 rfl

/-- C10.  The status endpoint is not a pure read: when the service is
enabled, no entry valid for the default context is cached and no refresh is
in flight, the get_cache call the endpoint makes fetches exactly once, and
when that fetch succeeds the endpoint has stored the new entry in the cache
and reports it present. -/
theorem status_endpoint_fetches (cfg : Config) (st : CMState) (now : Int)
    (o : FetchOutcome) (poll : Nat → CMState × Int)
    (hen : is_enabled cfg = true)
    (hmiss : get_cached st cfg.browser cfg.base_proxy_url now = none)
    (href : st.refreshing = false) :
    (get_cache cfg none none false st now o poll).fetches = 1 ∧
    ∀ c, fetch_from_service cfg (some cfg.browser) cfg.base_proxy_url o =
        Except.ok (some c) →
      ∃ resp st2, get_cf_status cfg st now o poll =
          Except.ok (resp, st2, 1) ∧
        st2.cache = some c ∧ resp.has_cache = true := by
  have hb : pyOr none cfg.browser = cfg.browser := rfl
  have hp : resolveProxy none cfg = cfg.base_proxy_url := rfl
  have hscrut : (if false then none
      else get_cached st (pyOr none cfg.browser) (resolveProxy none cfg)
        now) = (none : Option CFClearanceCache) := by
    simp [pyOr, resolveProxy, hmiss]
  constructor
  · simp only [get_cache, hscrut, href]
    cases hf : fetch_from_service cfg (some (pyOr none cfg.browser))
        (resolveProxy none cfg) o with
    | error e => simp
    | ok oc => cases oc <;> simp
  · intro c hfc
    have hfc2 : fetch_from_service cfg (some (pyOr none cfg.browser))
        (resolveProxy none cfg) o = Except.ok (some c) := by
      rw [hb, hp]; exact hfc
    have hscrut2 : get_cached st (pyOr none cfg.browser) (resolveProxy none cfg)
        now = none := by
      rw [hb, hp]; exact hmiss
    have hgc : get_cache cfg none none false st now o poll =
        { result := Except.ok (some c)
          state := set_refreshing (set_cache (set_refreshing st true) c) false
          fetches := 1, sleeps := 0 } := by
      simp [get_cache, hscrut2, href, hfc2, set_refreshing, set_cache]
    refine ⟨{ enabled := is_enabled cfg
              service_url := truncateServiceUrl cfg.service_url
              has_cache := true
              cached_clearance :=
                if c.cf_clearance = "" then none
                else some (c.cf_clearance.take 30 ++ "...") },
      set_refreshing (set_cache (set_refreshing st true) c) false, ?_, rfl,
      rfl⟩
    simp [get_cf_status, hen, hgc]

/-- Witness for C10: on an empty cache the status endpoint triggers one
fetch and, the fetch succeeding, stores and reports the entry. -/
theorem status_endpoint_fetches_witness :
    (get_cache cfgW none none false stEmpty 100
        (FetchOutcome.response 200 bodyW) pollStuck).fetches = 1 ∧
    ∀ c, fetch_from_service cfgW (some cfgW.browser) cfgW.base_proxy_url
        (FetchOutcome.response 200 bodyW) = Except.ok (some c) →
      ∃ resp st2, get_cf_status cfgW stEmpty 100
          (FetchOutcome.response 200 bodyW) pollStuck =
          Except.ok (resp, st2, 1) ∧
        st2.cache = some c ∧ resp.has_cache = true :=
  status_endpoint_fetches cfgW stEmpty 100 (FetchOutcome.response 200 bodyW)
    pollStuck (by decide) rfl rfl

/-- A step that neither makes anyone a fetcher nor touches the refreshing
flag preserves the singleflight invariant. -/
theorem Inv.frame {n : Nat} (s : Sys n) (st2 : CMState) (i : Fin n) (v : PC)
    (hinv : Inv s) (hv : v ≠ PC.fetching)
    (hr : st2.refreshing = s.st.refreshing) :
    Inv ⟨st2, fun k => if k = i then v else s.pcs k⟩ := by
  obtain ⟨h1, h2⟩ := hinv
  constructor
  · intro href k
    show (if k = i then v else s.pcs k) ≠ PC.fetching
    by_cases hk : k = i
    · rw [if_pos hk]; exact hv
    · rw [if_neg hk]; exact h1 (hr.symm.trans href) k
  · intro a b ha hb
    have ha2 : (if a = i then v else s.pcs a) = PC.fetching := ha
    have hb2 : (if b = i then v else s.pcs b) = PC.fetching := hb
    by_cases hai : a = i
    · rw [if_pos hai] at ha2; exact absurd ha2 hv
    · rw [if_neg hai] at ha2
      by_cases hbi : b = i
      · rw [if_pos hbi] at hb2; exact absurd hb2 hv
      · rw [if_neg hbi] at hb2; exact h2 a b ha2 hb2

/-- The step that turns a caller into the fetcher preserves the invariant:
it requires the flag clear, under which nobody else is fetching. -/
theorem Inv.enter_fetch {n : Nat} (s : Sys n) (st2 : CMState) (i : Fin n)
    (hinv : Inv s) (hr0 : s.st.refreshing = false)
    (hr2 : st2.refreshing = true) :
    Inv ⟨st2, fun k => if k = i then PC.fetching else s.pcs k⟩ := by
  obtain ⟨h1, h2⟩ := hinv
  constructor
  · intro href
    have href2 : st2.refreshing = false := href
    rw [hr2] at href2; cases href2
  · intro a b ha hb
    have ha2 : (if a = i then PC.fetching else s.pcs a) = PC.fetching := ha
    have hb2 : (if b = i then PC.fetching else s.pcs b) = PC.fetching := hb
    by_cases hai : a = i
    · by_cases hbi : b = i
      · rw [hai, hbi]
      · rw [if_neg hbi] at hb2; exact absurd hb2 (h1 hr0 b)
    · rw [if_neg hai] at ha2; exact absurd ha2 (h1 hr0 a)

/-- A fetch-completion step preserves the invariant: the sole fetcher leaves
the fetching state while the flag is cleared. -/
theorem Inv.exit_fetch {n : Nat} (s : Sys n) (st2 : CMState) (i : Fin n)
    (v : PC) (hinv : Inv s) (hv : v ≠ PC.fetching)
    (hpc : s.pcs i = PC.fetching) :
    Inv ⟨st2, fun k => if k = i then v else s.pcs k⟩ := by
  obtain ⟨h1, h2⟩ := hinv
  have hnone : ∀ k, (if k = i then v else s.pcs k) ≠ PC.fetching := by
    intro k
    by_cases hk : k = i
    · rw [if_pos hk]; exact hv
    · rw [if_neg hk]
      intro hcon
      exact hk (h2 k i hcon hpc)
  exact ⟨fun _ k => hnone k, fun a b ha hb => absurd ha (hnone a)⟩

/-- Every atomic step of the concurrent system preserves the singleflight
invariant. -/
theorem step_preserves_inv {n : Nat} (cfg : Config) (params : Fin n → Params)
    (s s2 : Sys n) (hstep : Step cfg params s s2) (hinv : Inv s) : Inv s2 := by
  cases hstep with
  | hit i now c hpc hc =>
    exact Inv.frame s s.st i _ hinv (fun h => nomatch h) rfl
  | toWait i fr now hpc hmiss href =>
    exact Inv.frame s s.st i _ hinv (fun h => nomatch h) rfl
  | toFetch i fr now hpc hmiss href =>
    exact Inv.enter_fetch s (set_refreshing s.st true) i hinv href rfl
  | wakeHit i fuel now c hpc hc =>
    exact Inv.frame s s.st i _ hinv (fun h => nomatch h) rfl
  | wakeBreak i fuel now hpc hc href =>
    exact Inv.frame s s.st i _ hinv (fun h => nomatch h) rfl
  | wakeAgain i fuel now hpc hc href =>
    exact Inv.frame s s.st i _ hinv (fun h => nomatch h) rfl
  | wakeExhaust i now hpc hc href =>
    exact Inv.frame s s.st i _ hinv (fun h => nomatch h) rfl
  | fetchPublish i o c hpc hf =>
    exact Inv.exit_fetch s (set_refreshing (set_cache s.st c) false) i _ hinv
      (fun h => nomatch h) hpc
  | fetchFail i o hpc hf =>
    exact Inv.exit_fetch s (set_refreshing s.st false) i _ hinv
      (fun h => nomatch h) hpc
  | fetchRaise i o hpc hf =>
    exact Inv.exit_fetch s (set_refreshing s.st false) i _ hinv
      (fun h => nomatch h) hpc
  | adminInvalidate =>
    obtain ⟨h1, h2⟩ := hinv
    exact ⟨fun href k => h1 href k, h2⟩

/-- The singleflight invariant holds in every state reachable from a state
satisfying it. -/
theorem reachable_inv {n : Nat} (cfg : Config) (params : Fin n → Params)
    (s0 s : Sys n) (h0 : Inv s0)
    (hreach : Relation.ReflTransGen (Step cfg params) s0 s) : Inv s := by
  induction hreach with
  | refl => exact h0
  | tail hab hbc ih => exact step_preserves_inv cfg params _ _ hbc ih

/-- C1.  Under arbitrary interleavings of concurrent get_clearance and
get_cache callers (plus admin invalidations), starting from any state with
the refreshing flag clear and nobody fetching, at most one caller is ever
inside the remote fetch: any two callers simultaneously in the fetching
state are the same caller.  The entry block that observes refreshing and,
when it is false, transitions it to true is a single atomic step of the
model because asyncio suspends a coroutine only at asyncio.sleep and the
HTTP await, so every other concurrent caller observes refreshing true and
takes the waiter path. -/
theorem singleflight_at_most_one_fetch {n : Nat} (cfg : Config)
    (params : Fin n → Params) (s0 s : Sys n)
    (href0 : s0.st.refreshing = false)
    (hstart : ∀ i, s0.pcs i ≠ PC.fetching)
    (hreach : Relation.ReflTransGen (Step cfg params) s0 s)
    (i j : Fin n) (hi : s.pcs i = PC.fetching) (hj : s.pcs j = PC.fetching) :
    i = j := by
  have hinv : Inv s :=
    reachable_inv cfg params s0 s
      ⟨fun _ k => hstart k, fun a b ha hb => absurd ha (hstart a)⟩ hreach
  exact hinv.2 i j hi hj

/-- Witness for C1 on a two-caller system in which caller 0 has become the
fetcher after one step. -/
theorem singleflight_at_most_one_fetch_witness : (0 : Fin 2) = 0 :=
  singleflight_at_most_one_fetch cfgW (fun _ => ⟨"chrome136", none⟩)
    ⟨stEmpty, fun _ => PC.start false⟩
    ⟨set_refreshing stEmpty true,
      fun k => if k = (0 : Fin 2) then PC.fetching else PC.start false⟩
    rfl (fun _ h => nomatch h)
    (Relation.ReflTransGen.single
      (Step.toFetch _ 0 false 0 rfl (Or.inr rfl) rfl))
    0 0 rfl rfl

end CfClearance
